import Mathlib

/-
Verification of the tessera core against its specification.

The Go source is embedded shallowly:
- pure layout functions become Lean functions on Nat, with uint64 overflow
  made explicit (multiplication reduced mod 2 to the 64, and shifts by 64 or
  more of a 64-bit value yielding 0, exactly as Go defines them);
- the dedup queue becomes an explicit state machine (QState) with the
  in-flight map and the item heap as functions, and the per-item future
  (a closed one-slot channel wrapped in sync.OnceValues) as explicit
  channel-slot plus cache fields;
- the migration copier becomes a sequential interpreter over oracles for
  the storage driver and the source log, with the retry loop given fuel 10
  as in the source, and the SetEntryBundle invocations recorded in a trace.
-/

namespace Layout

/-- Upper bound of uint64 values plus one; Go arithmetic on uint64 is
arithmetic modulo this constant. -/
def uint64Mod : Nat := 2 ^ 64

/-- Embeds layout.partialTileSize: the expected number of leaves in a tile at
the given location within a tree of the specified logSize, or 0 if the tile is
expected to be fully populated.  The shift count is the Go uint64 product
level * 8 (reduced mod 2 to the 64); a shift by 64 or more of a uint64 value
yields 0 in Go, which Nat.shiftRight reproduces for inputs below 2 to the 64. -/
def partialTileSize (level index logSize : Nat) : Nat :=
  let sizeAtLevel := logSize >>> ((level * 8) % uint64Mod)
  let fullTiles := sizeAtLevel / 256
  if index < fullTiles then 0 else sizeAtLevel % 256

/-- Embeds layout.NodeCoordsToTileAddress: returns (TileLevel, TileIndex) in
tile-space and the (NodeLevel, NodeIndex) address within that tile of the
given tree node coordinates.  treeLevel mod 8 is below 8, so the shift
1 <<< (8 - treeLevel mod 8) never overflows uint64. -/
def NodeCoordsToTileAddress (treeLevel treeIndex : Nat) : Nat × Nat × Nat × Nat :=
  let tileRowWidth := 1 <<< (8 - treeLevel % 8)
  let tileLevel := treeLevel / 8
  let tileIndex := treeIndex / tileRowWidth
  let nodeLevel := treeLevel % 8
  let nodeIndex := treeIndex % tileRowWidth
  (tileLevel, tileIndex, nodeLevel, nodeIndex)

/-- C1 counterexample: the claimed equivalence
partialTileSize(L, I, N) = 0 iff I < N / 256 ^ (L + 1) fails at
L = 0, I = 1, N = 256: the function returns 256 mod 256 = 0 through the
non-full branch, yet 1 < 256 / 256 is false. -/
theorem partialTileSize_iff_counterexample :
    partialTileSize 0 1 256 = 0 ∧ ¬ (1 < 256 / 256 ^ (0 + 1)) := by
  decide

/-- C1 (amended): for uint64 inputs, partialTileSize(L, I, N) returns 0 if and
only if I < (N >> (L * 8)) / 256 or (N >> (L * 8)) mod 256 = 0, where the
shift is the Go uint64 shift; and whenever the result is non-zero it equals
(N >> (L * 8)) mod 256. -/
theorem partialTileSize_spec (L I N : Nat)
    (hL : L < uint64Mod) (hI : I < uint64Mod) (hN : N < uint64Mod) :
    (partialTileSize L I N = 0 ↔
      (I < (N >>> ((L * 8) % uint64Mod)) / 256
        ∨ (N >>> ((L * 8) % uint64Mod)) % 256 = 0))
    ∧ (partialTileSize L I N ≠ 0 →
        partialTileSize L I N = (N >>> ((L * 8) % uint64Mod)) % 256) := by
  constructor
  · by_cases h : I < (N >>> ((L * 8) % uint64Mod)) / 256
    · simp [partialTileSize, h]
    · simp [partialTileSize, h]
  · intro hne
    by_cases h : I < (N >>> ((L * 8) % uint64Mod)) / 256
    · simp [partialTileSize, h] at hne
    · simp [partialTileSize, h]

/-- C1 witness: the amended statement evaluated at L = 0, I = 0, N = 300. -/
theorem partialTileSize_spec_witness :
    (partialTileSize 0 0 300 = 0 ↔
      (0 < (300 >>> ((0 * 8) % uint64Mod)) / 256
        ∨ (300 >>> ((0 * 8) % uint64Mod)) % 256 = 0))
    ∧ (partialTileSize 0 0 300 ≠ 0 →
        partialTileSize 0 0 300 = (300 >>> ((0 * 8) % uint64Mod)) % 256) :=
  partialTileSize_spec 0 0 300 (by decide) (by decide) (by decide)

/-- C5: for treeLevel below 64 and treeIndex below 2 to the 48, recombining
the output of NodeCoordsToTileAddress via
tileLevel * 8 + nodeLevel and tileIndex * (1 <<< (8 - treeLevel mod 8)) +
nodeIndex recovers the original coordinates. -/
theorem node_coords_round_trip (treeLevel treeIndex : Nat)
    (h1 : treeLevel < 64) (h2 : treeIndex < 2 ^ 48) :
    (NodeCoordsToTileAddress treeLevel treeIndex).1 * 8
        + (NodeCoordsToTileAddress treeLevel treeIndex).2.2.1 = treeLevel
    ∧ (NodeCoordsToTileAddress treeLevel treeIndex).2.1
          * (1 <<< (8 - treeLevel % 8))
        + (NodeCoordsToTileAddress treeLevel treeIndex).2.2.2 = treeIndex := by
  constructor
  · simp only [NodeCoordsToTileAddress]
    omega
  · simp only [NodeCoordsToTileAddress]
    rw [Nat.mul_comm]
    exact Nat.div_add_mod treeIndex (1 <<< (8 - treeLevel % 8))

/-- C5 witness: the round trip evaluated at treeLevel = 13, treeIndex = 5000. -/
theorem node_coords_round_trip_witness :
    (NodeCoordsToTileAddress 13 5000).1 * 8
        + (NodeCoordsToTileAddress 13 5000).2.2.1 = 13
    ∧ (NodeCoordsToTileAddress 13 5000).2.1 * (1 <<< (8 - 13 % 8))
        + (NodeCoordsToTileAddress 13 5000).2.2.2 = 5000 :=
  node_coords_round_trip 13 5000 (by decide) (by decide)

end Layout

namespace Storage

/-- Errors are opaque; Go error values are modelled as strings. -/
abbrev Err := String

/-- The value a future can produce when invoked: an assigned index, an error,
or the panic raised by queueItem.notify when a successful flush left the
entry without an index. -/
inductive Outcome where
  | ok (idx : Nat)
  | err (e : Err)
  | panicked
deriving DecidableEq

/-- Embeds the part of tessera.Entry the queue uses: the dedup identity and
the index assigned during a flush (nil until then). -/
structure Entry where
  identity : String
  index : Option Nat
deriving DecidableEq

/-- Embeds queueItem.  The Go item holds the entry, a capacity-one channel c
that notify fills with a result closure and closes, and f, a
sync.OnceValues wrapper that receives from c once and caches the value.
chanVal models the content of the closed channel (none until notify runs, and
the closure result is evaluated at notify time since the entry no longer
changes afterwards); cached models the OnceValues slot. -/
structure QItem where
  entry : Entry
  chanVal : Option Outcome
  cached : Option Outcome
deriving DecidableEq

/-- Embeds newEntry: a fresh item with an empty channel and an empty
OnceValues cache. -/
def newEntry (data : Entry) : QItem :=
  { entry := data, chanVal := none, cached := none }

/-- The result closure queueItem.notify places in the channel: with a non-nil
error it returns that error; otherwise it panics if the entry has no
assigned index, and returns the index if it has one. -/
def notifyOutcome (err : Option Err) (idx : Option Nat) : Outcome :=
  match err with
  | some e => Outcome.err e
  | none =>
    match idx with
    | none => Outcome.panicked
    | some i => Outcome.ok i

/-- Embeds queueItem.notify: fills the channel slot with the result computed
from err and the current assigned index of the entry. -/
def notify (it : QItem) (err : Option Err) : QItem :=
  { it with chanVal := some (notifyOutcome err it.entry.index) }

/-- Invoking the future f (the sync.OnceValues wrapper): a cached value is
returned as is; otherwise the channel is received from (blocking, hence
none, when notify has not yet run) and the value is cached. -/
def invoke (it : QItem) : Option (Outcome × QItem) :=
  match it.cached with
  | some v => some (v, it)
  | none =>
    match it.chanVal with
    | some v => some (v, { it with cached := some v })
    | none => none

/-- The mutable state of a Queue: the inFlight dedup map (identity to item
id), the heap of items addressed by id, the underlying buffer content in
submission order, and the next fresh item id. -/
structure QState where
  inFlight : String → Option Nat
  items : Nat → QItem
  buffer : List Nat
  nextId : Nat

/-- Embeds Queue.squashDupes: returns the item id for the entry and true when
the identity was already in flight (the entry must then NOT be buffered);
otherwise it allocates a fresh item, registers it in the dedup map and
returns false. -/
def squashDupes (s : QState) (e : Entry) : Nat × QState × Bool :=
  match s.inFlight e.identity with
  | some id => (id, s, true)
  | none =>
    let id := s.nextId
    (id,
     { s with
       inFlight := fun k => if k = e.identity then some id else s.inFlight k,
       items := fun j => if j = id then newEntry e else s.items j,
       nextId := id + 1 },
     false)

/-- Replaces the item stored at id. -/
def updateItem (s : QState) (id : Nat) (f : QItem → QItem) : QState :=
  { s with items := fun j => if j = id then f (s.items j) else s.items j }

/-- Embeds Queue.Add: squash duplicates; a dupe gets the existing future and
the state is untouched; a fresh entry is pushed onto the buffer (a push
failure, surfaced by the buffer library, notifies the item with that error
instead). -/
def Add (s : QState) (e : Entry) (pushErr : Option Err) : Nat × QState :=
  match squashDupes s e with
  | (id, s1, true) => (id, s1)
  | (id, s1, false) =>
    match pushErr with
    | some er => (id, updateItem s1 id (fun it => notify it (some er)))
    | none => (id, { s1 with buffer := s1.buffer ++ [id] })

/-- One iteration of the loop in Queue.doFlush: the flush callback has
assigned the index given by assign (via MarshalBundleData) and returned err;
the item is notified and its identity is deleted from the dedup map. -/
def stepNotify (assign : Nat → Option Nat) (err : Option Err)
    (st : QState) (id : Nat) : QState :=
  let it := st.items id
  let it2 := notify { it with entry := { it.entry with index := assign id } } err
  { st with
    items := fun j => if j = id then it2 else st.items j,
    inFlight := fun k => if k = it.entry.identity then none else st.inFlight k }

/-- Embeds Queue.doFlush: after the flush callback returns err (having
assigned the indices given by assign), every item of the batch is notified,
including all duplicates since they share the item, and its dedup entry is
removed. -/
def doFlush (s : QState) (batch : List Nat) (assign : Nat → Option Nat)
    (err : Option Err) : QState :=
  match batch with
  | [] => s
  | b :: rest => doFlush (stepNotify assign err s b) rest assign err

/-- A concrete notified item used to evaluate the future semantics. -/
def itemC9 : QItem :=
  { entry := { identity := "e", index := some 5 },
    chanVal := some (Outcome.ok 5), cached := none }

lemma stepNotify_identity (assign : Nat → Option Nat) (err : Option Err)
    (st : QState) (id j : Nat) :
    ((stepNotify assign err st id).items j).entry.identity
      = (st.items j).entry.identity := by
  by_cases hj : j = id
  · subst hj
    simp [stepNotify, notify]
  · simp [stepNotify, hj]

lemma stepNotify_inFlight_none (assign : Nat → Option Nat) (err : Option Err)
    (st : QState) (id : Nat) (k : String) (h : st.inFlight k = none) :
    (stepNotify assign err st id).inFlight k = none := by
  simp only [stepNotify]
  by_cases hk : k = (st.items id).entry.identity
  · simp [hk]
  · simp [hk, h]

lemma doFlush_inFlight_none (s : QState) (batch : List Nat)
    (assign : Nat → Option Nat) (err : Option Err) (k : String)
    (h : s.inFlight k = none) :
    (doFlush s batch assign err).inFlight k = none := by
  induction batch generalizing s with
  | nil => simpa [doFlush] using h
  | cons b rest ih =>
    simp only [doFlush]
    exact ih _ (stepNotify_inFlight_none assign err s b k h)

lemma doFlush_items_notMem (s : QState) (batch : List Nat)
    (assign : Nat → Option Nat) (err : Option Err) (j : Nat) (h : j ∉ batch) :
    (doFlush s batch assign err).items j = s.items j := by
  induction batch generalizing s with
  | nil => simp [doFlush]
  | cons b rest ih =>
    simp only [doFlush]
    have hjb : j ≠ b := by
      intro e
      exact h (e ▸ List.mem_cons_self b rest)
    rw [ih _ (fun hm => h (List.mem_cons_of_mem b hm))]
    simp [stepNotify, hjb]

lemma doFlush_chanVal (s : QState) (batch : List Nat)
    (assign : Nat → Option Nat) (err : Option Err) (id : Nat) (h : id ∈ batch) :
    ((doFlush s batch assign err).items id).chanVal
      = some (notifyOutcome err (assign id)) := by
  induction batch generalizing s with
  | nil => cases h
  | cons b rest ih =>
    by_cases hid : id ∈ rest
    · simp only [doFlush]
      exact ih _ hid
    · have hb : id = b := by
        rcases List.mem_cons.mp h with h1 | h2
        · exact h1
        · exact absurd h2 hid
      subst hb
      simp only [doFlush]
      rw [doFlush_items_notMem _ rest assign err id hid]
      simp [stepNotify, notify]

lemma doFlush_inFlight_removed (s : QState) (batch : List Nat)
    (assign : Nat → Option Nat) (err : Option Err) (id : Nat) (h : id ∈ batch) :
    (doFlush s batch assign err).inFlight ((s.items id).entry.identity)
      = none := by
  induction batch generalizing s with
  | nil => cases h
  | cons b rest ih =>
    by_cases hid : id ∈ rest
    · simp only [doFlush]
      have h2 := ih (stepNotify assign err s b) hid
      rwa [stepNotify_identity assign err s b id] at h2
    · have hb : id = b := by
        rcases List.mem_cons.mp h with h1 | h2
        · exact h1
        · exact absurd h2 hid
      subst hb
      simp only [doFlush]
      apply doFlush_inFlight_none
      simp [stepNotify]

lemma Add_of_inFlight (s : QState) (e : Entry) (pe : Option Err) (id : Nat)
    (h : s.inFlight e.identity = some id) : Add s e pe = (id, s) := by
  simp [Add, squashDupes, h]

/-- C2: adding an entry e2 whose identity equals that of an in-flight entry
e1 returns the very same future (the same item id that the Add of e1
returned), leaves the whole state, including the buffer, unchanged, and
hence both callers resolve through the same item to the same index or
error. -/
theorem queue_add_dedup (s : QState) (e1 e2 : Entry) (pe1 pe2 : Option Err)
    (h : e2.identity = e1.identity) :
    (Add s e1 pe1).2.inFlight e1.identity = some (Add s e1 pe1).1
    ∧ Add (Add s e1 pe1).2 e2 pe2 = ((Add s e1 pe1).1, (Add s e1 pe1).2) := by
  have key : (Add s e1 pe1).2.inFlight e1.identity = some (Add s e1 pe1).1 := by
    cases hl : s.inFlight e1.identity with
    | some id => simp [Add, squashDupes, hl]
    | none =>
      cases pe1 with
      | some er => simp [Add, squashDupes, hl, updateItem]
      | none => simp [Add, squashDupes, hl]
  refine ⟨key, ?_⟩
  apply Add_of_inFlight
  rw [h]
  exact key

/-- C3: when the flush callback fails with error e, every item of the batch
(and hence every original or duplicate future, since duplicates share the
item) is notified with that same error, the dedup entry of its identity is
removed, and a subsequent add of any entry with that identity is treated as
a fresh submission (squashDupes reports it as not a dupe). -/
theorem queue_flush_error (s : QState) (batch : List Nat)
    (assign : Nat → Option Nat) (e : Err) (id : Nat) (hmem : id ∈ batch) :
    ((doFlush s batch assign (some e)).items id).chanVal
        = some (Outcome.err e)
    ∧ (doFlush s batch assign (some e)).inFlight
        ((s.items id).entry.identity) = none
    ∧ ∀ e2 : Entry, e2.identity = (s.items id).entry.identity →
        (squashDupes (doFlush s batch assign (some e)) e2).2.2 = false := by
  refine ⟨?_, ?_, ?_⟩
  · have h2 := doFlush_chanVal s batch assign (some e) id hmem
    simpa [notifyOutcome] using h2
  · exact doFlush_inFlight_removed s batch assign (some e) id hmem
  · intro e2 he2
    have hif : (doFlush s batch assign (some e)).inFlight e2.identity = none := by
      rw [he2]
      exact doFlush_inFlight_removed s batch assign (some e) id hmem
    simp [squashDupes, hif]

/-- C9: the future is single shot and idempotent: once notified (the channel
slot holds v and nothing is cached yet, which is the state of every queued
item right after notify, since only invoke fills the cache and only from a
filled channel), the first invocation returns v and caches it, and invoking
the cached item again returns the very same v and the same item, so every
repetition, by any caller including duplicates, yields the same value. -/
theorem future_single_shot (it : QItem) (v : Outcome)
    (h1 : it.chanVal = some v) (h2 : it.cached = none) :
    invoke it = some (v, { it with cached := some v })
    ∧ invoke { it with cached := some v }
        = some (v, { it with cached := some v }) := by
  constructor
  · simp [invoke, h1, h2]
  · simp [invoke]

/-- C9 witness: the single-shot behaviour evaluated on a concrete notified
item. -/
theorem future_single_shot_witness :
    invoke itemC9 = some (Outcome.ok 5, { itemC9 with cached := some (Outcome.ok 5) })
    ∧ invoke { itemC9 with cached := some (Outcome.ok 5) }
        = some (Outcome.ok 5, { itemC9 with cached := some (Outcome.ok 5) }) :=
  future_single_shot itemC9 (Outcome.ok 5) rfl rfl

/-- C10: with a nil flush error and no assigned index the notify closure
panics, rather than producing an index (in particular not 0) or an error;
and whenever the flush assigns an index to an entry of the batch, the
notified channel value of that item is never the panic, so the branch is
unreachable under that precondition. -/
theorem notify_panic_semantics :
    notifyOutcome none none = Outcome.panicked
    ∧ (∀ i : Nat, notifyOutcome none none ≠ Outcome.ok i)
    ∧ (∀ er : Err, notifyOutcome none none ≠ Outcome.err er)
    ∧ (∀ i : Nat, notifyOutcome none (some i) = Outcome.ok i)
    ∧ (∀ (s : QState) (batch : List Nat) (assign : Nat → Option Nat) (id : Nat),
        id ∈ batch → assign id ≠ none →
        ((doFlush s batch assign none).items id).chanVal
          ≠ some Outcome.panicked) := by
  refine ⟨rfl, ?_, ?_, fun i => rfl, ?_⟩
  · intro i
    simp [notifyOutcome]
  · intro er
    simp [notifyOutcome]
  · intro s batch assign id hmem hassign
    rw [doFlush_chanVal s batch assign none id hmem]
    cases ha : assign id with
    | none => exact absurd ha hassign
    | some k => simp [notifyOutcome]

/-- A fresh queue state used to evaluate the dedup behaviour. -/
def qsC2 : QState :=
  { inFlight := fun _ => none,
    items := fun _ => newEntry { identity := "", index := none },
    buffer := [], nextId := 0 }

/-- An entry used to evaluate the dedup behaviour. -/
def entryC2a : Entry := { identity := "k", index := none }

/-- A second entry with the same identity used to evaluate the dedup
behaviour. -/
def entryC2b : Entry := { identity := "k", index := none }

/-- C2 witness: the dedup behaviour evaluated on a concrete state and two
entries sharing an identity. -/
theorem queue_add_dedup_witness :
    (Add qsC2 entryC2a none).2.inFlight entryC2a.identity
        = some (Add qsC2 entryC2a none).1
    ∧ Add (Add qsC2 entryC2a none).2 entryC2b none
        = ((Add qsC2 entryC2a none).1, (Add qsC2 entryC2a none).2) :=
  queue_add_dedup qsC2 entryC2a entryC2b none none rfl

/-- A queue state with one in-flight item, used to evaluate the flush-error
behaviour. -/
def qsC3 : QState :=
  { inFlight := fun k => if k = "id1" then some 0 else none,
    items := fun _ => newEntry { identity := "id1", index := none },
    buffer := [0], nextId := 1 }

/-- An entry with the in-flight identity of qsC3, used to evaluate
resubmission after a failed flush. -/
def entryC3 : Entry := { identity := "id1", index := none }

/-- C3 witness: the failed-flush behaviour evaluated on a concrete batch. -/
theorem queue_flush_error_witness :
    ((doFlush qsC3 [0] (fun _ => some 7) (some "boom")).items 0).chanVal
        = some (Outcome.err "boom")
    ∧ (doFlush qsC3 [0] (fun _ => some 7) (some "boom")).inFlight
        ((qsC3.items 0).entry.identity) = none
    ∧ (squashDupes (doFlush qsC3 [0] (fun _ => some 7) (some "boom"))
        entryC3).2.2 = false :=
  ⟨(queue_flush_error qsC3 [0] (fun _ => some 7) "boom" 0 (by simp)).1,
   (queue_flush_error qsC3 [0] (fun _ => some 7) "boom" 0 (by simp)).2.1,
   (queue_flush_error qsC3 [0] (fun _ => some 7) "boom" 0 (by simp)).2.2
     entryC3 rfl⟩

/-- A queue state with one in-flight item, used to evaluate the
no-panic-after-assignment behaviour. -/
def qsC10 : QState :=
  { inFlight := fun k => if k = "id2" then some 0 else none,
    items := fun _ => newEntry { identity := "id2", index := none },
    buffer := [0], nextId := 1 }

/-- C10 witness: the panic value on the unassigned branch, and the absence
of the panic for a concrete successful flush that assigned an index. -/
theorem notify_panic_semantics_witness :
    notifyOutcome none none = Outcome.panicked
    ∧ ((doFlush qsC10 [0] (fun _ => some 3) none).items 0).chanVal
        ≠ some Outcome.panicked :=
  ⟨notify_panic_semantics.1,
   notify_panic_semantics.2.2.2.2 qsC10 [0] (fun _ => some 3) 0 (by simp)
     (by simp)⟩

end Storage

namespace Tessera

/-- Errors are opaque; Go error values are modelled as strings. -/
abbrev Err := String

/-- Raw byte strings. -/
abbrev Bytes := List Nat

/-- Embeds the bundle work item: the address of an individual entry bundle,
its index and its partial size (0 for a complete bundle). -/
structure MBundle where
  index : Nat
  partialWidth : Nat
deriving DecidableEq

/-- The address of one SetEntryBundle invocation, recorded in a trace. -/
abbrev StoreCall := Nat × Nat

/-- The result of one attempt of the retried fetch-and-store closure,
together with the SetEntryBundle invocations it performed. -/
abbrev Attempt := Except Err Unit × List StoreCall

/-- Oracles for the collaborators of Migrate: the target MigrationStorage
(IntegratedSize, SetEntryBundle, AwaitIntegration) and the source fetcher
getEntries.  Fetch and store outcomes may depend on the retry attempt
number, modelling transient failures. -/
structure MOracles where
  integratedSize : Except Err Nat
  getEntries : Nat → Nat → Nat → Except Err Bytes
  setEntryBundle : Nat → Nat → Bytes → Nat → Option Err
  awaitIntegration : Except Err Bytes

/-- True exactly on error results. -/
def isErr {α : Type} : Except Err α → Bool
  | Except.error _ => true
  | Except.ok _ => false

/-- The closure handed to retry.Do by copier.migrateWorker, at attempt k:
fetch the bundle via getEntries, store it via SetEntryBundle, wrapping
either failure; the store call is recorded when it happens (fetch failures
perform no store). -/
def fetchAndStore (o : MOracles) (b : MBundle) (k : Nat) : Attempt :=
  match o.getEntries b.index b.partialWidth k with
  | Except.error e => (Except.error ("failed to fetch entrybundle: " ++ e), [])
  | Except.ok d =>
    match o.setEntryBundle b.index b.partialWidth d k with
    | some e =>
      (Except.error ("failed to store entrybundle: " ++ e),
       [(b.index, b.partialWidth)])
    | none => (Except.ok (), [(b.index, b.partialWidth)])

/-- Models retry.Do of the external avast retry-go library as the source
configures it, per the spec: up to `fuel` attempts (the source passes
retry.Attempts 10); a successful attempt returns at once; after the final
failed attempt the final error is surfaced.  The exponential backoff delays
between attempts are timing and are not modelled.  The second component
counts the attempts performed; the traces of all attempts accumulate. -/
def retryLoop (f : Nat → Attempt) : Nat → Nat → Attempt × Nat
  | 0, k => ((Except.error "retry: no attempts", []), k)
  | fuel + 1, k =>
    let a := f k
    if isErr a.1 then
      if fuel = 0 then (a, k + 1)
      else
        let r := retryLoop f fuel (k + 1)
        ((r.1.1, a.2 ++ r.1.2), r.2)
    else (a, k + 1)

/-- Embeds copier.migrateWorker, linearized over the todo list: each bundle
is processed with the 10-attempt retry; a retry failure aborts the worker
with that error; a success counts the bundle as migrated
(bundlesMigrated.Add 1). Returns the result, the migrated count and the
trace of SetEntryBundle invocations. -/
def migrateWorker (o : MOracles) : List MBundle → Except Err Unit × Nat × List StoreCall
  | [] => (Except.ok (), 0, [])
  | b :: rest =>
    let r := retryLoop (fetchAndStore o b) 10 0
    if isErr r.1.1 then (r.1.1, 0, r.1.2)
    else
      let w := migrateWorker o rest
      (w.1, w.2.1 + 1, r.1.2 ++ w.2.2)

/-- Modelled from the spec: layout.Range, which populateWork uses to
enumerate work, is not included in src/.  Spec section 4.5 step 2 says to
enumerate the set of bundle addresses spanning the leaf interval from
targetSize to sourceSize, a bundle address being (index, partial) with
index = leafIndex / 256 and partial = 0 for a complete bundle of 256 leaves,
else the leaf count of the trailing bundle.  No claim theorem depends on the
content of this list. -/
def rangeBundles (lo hi : Nat) : List MBundle :=
  if hi ≤ lo then []
  else
    (List.range ((hi - 1) / 256 + 1 - lo / 256)).map fun i =>
      let idx := lo / 256 + i
      { index := idx,
        partialWidth := if idx = hi / 256 ∧ hi % 256 ≠ 0 then hi % 256 else 0 }

/-- Embeds Migrate, linearized: read the local integrated size and fail on
error or when it exceeds sourceSize; otherwise run the copy work and the
integration wait, fail if either fails, and finally fail unless the locally
computed root equals sourceRoot byte for byte.  The second component is the
trace of SetEntryBundle invocations performed. -/
def migrate (o : MOracles) (numWorkers sourceSize : Nat) (sourceRoot : Bytes) :
    Except Err Unit × List StoreCall :=
  match o.integratedSize with
  | Except.error e => (Except.error ("size: " ++ e), [])
  | Except.ok targetSize =>
    if targetSize > sourceSize then
      (Except.error "target size > source size", [])
    else
      let w := migrateWorker o (rangeBundles targetSize sourceSize)
      match w.1 with
      | Except.error e => (Except.error ("migration failed: " ++ e), w.2.2)
      | Except.ok _ =>
        match o.awaitIntegration with
        | Except.error e => (Except.error ("migration failed: " ++ e), w.2.2)
        | Except.ok root =>
          if root = sourceRoot then (Except.ok (), w.2.2)
          else
            (Except.error
              "migration completed, but local root hash does not match source root hash",
             w.2.2)

lemma retryLoop_count (f : Nat → Attempt) (fuel k : Nat) :
    (retryLoop f fuel k).2 ≤ k + fuel := by
  induction fuel generalizing k with
  | zero => simp [retryLoop]
  | succ n ih =>
    simp only [retryLoop]
    by_cases hk : isErr (f k).1 = true
    · simp only [hk, if_true]
      by_cases hn : n = 0
      · subst hn
        simp
      · simp only [hn, if_false]
        have h3 := ih (k + 1)
        omega
    · simp only [Bool.not_eq_true] at hk
      simp [hk]

lemma retryLoop_lastError (f : Nat → Attempt) (fuel k : Nat) (hf : 0 < fuel)
    (h : ∀ j, k ≤ j → j < k + fuel → isErr (f j).1 = true) :
    (retryLoop f fuel k).1.1 = (f (k + fuel - 1)).1 := by
  induction fuel generalizing k with
  | zero => omega
  | succ n ih =>
    have hk : isErr (f k).1 = true := h k (Nat.le_refl k) (by omega)
    simp only [retryLoop, hk, if_true]
    by_cases hn : n = 0
    · subst hn
      simp
    · simp only [hn, if_false]
      have h2 := ih (k + 1) (Nat.pos_of_ne_zero hn)
        (fun j hj1 hj2 => h j (by omega) (by omega))
      have h3 : k + 1 + n - 1 = k + (n + 1) - 1 := by omega
      rw [h3] at h2
      exact h2

lemma retryLoop_ok_exists (f : Nat → Attempt) (fuel k : Nat)
    (h : isErr (retryLoop f fuel k).1.1 = false) :
    ∃ j, k ≤ j ∧ j < k + fuel ∧ isErr (f j).1 = false := by
  induction fuel generalizing k with
  | zero => simp [retryLoop, isErr] at h
  | succ n ih =>
    by_cases hk : isErr (f k).1 = true
    · simp only [retryLoop, hk, if_true] at h
      by_cases hn : n = 0
      · subst hn
        simp at h
        rw [h] at hk
        cases hk
      · simp only [hn, if_false] at h
        obtain ⟨j, hj1, hj2, hj3⟩ := ih (k + 1) h
        exact ⟨j, by omega, by omega, hj3⟩
    · simp only [Bool.not_eq_true] at hk
      exact ⟨k, Nat.le_refl k, by omega, hk⟩

lemma retryLoop_exists_ok (f : Nat → Attempt) (fuel k j : Nat)
    (hj1 : k ≤ j) (hj2 : j < k + fuel) (hok : isErr (f j).1 = false) :
    isErr (retryLoop f fuel k).1.1 = false := by
  induction fuel generalizing k with
  | zero => omega
  | succ n ih =>
    by_cases hk : isErr (f k).1 = true
    · have hjk : j ≠ k := by
        intro e
        subst e
        rw [hok] at hk
        cases hk
      by_cases hn : n = 0
      · omega
      · simp only [retryLoop, hk, if_true, hn, if_false]
        exact ih (k + 1) (by omega) (by omega)
    · simp only [Bool.not_eq_true] at hk
      simp [retryLoop, hk]

/-- C7: when the locally integrated size of the target exceeds sourceSize,
Migrate fails at the initial check, before any copy work is enqueued and in
particular before any SetEntryBundle invocation (the trace of store calls in
the result is empty). -/
theorem migrate_target_size_guard (o : MOracles) (nw srcSz : Nat)
    (srcRoot : Bytes) (t : Nat)
    (h1 : o.integratedSize = Except.ok t) (h2 : srcSz < t) :
    migrate o nw srcSz srcRoot = (Except.error "target size > source size", []) := by
  simp [migrate, h1, h2]

/-- Concrete oracles whose target reports size 5, used to evaluate the
size guard. -/
def oraclesC7 : MOracles :=
  { integratedSize := Except.ok 5,
    getEntries := fun _ _ _ => Except.ok [],
    setEntryBundle := fun _ _ _ _ => none,
    awaitIntegration := Except.ok [] }

/-- C7 witness: the size guard evaluated with a target of size 5 and a
source of size 3. -/
theorem migrate_target_size_guard_witness :
    migrate oraclesC7 1 3 [] = (Except.error "target size > source size", []) :=
  migrate_target_size_guard oraclesC7 1 3 [] 5 rfl (by decide)

/-- C4: once past the initial size check (the local size t was read without
error and does not exceed sourceSize), Migrate succeeds exactly when the
copy work and the integration wait both finish without error AND the
locally computed root equals sourceRoot; in particular a successful copy
whose root differs from sourceRoot makes Migrate fail. -/
theorem migrate_root_verified (o : MOracles) (nw srcSz : Nat)
    (srcRoot : Bytes) (t : Nat)
    (h1 : o.integratedSize = Except.ok t) (h2 : t ≤ srcSz) :
    ((migrate o nw srcSz srcRoot).1 = Except.ok ()
      ↔ ((migrateWorker o (rangeBundles t srcSz)).1 = Except.ok ()
          ∧ o.awaitIntegration = Except.ok srcRoot))
    ∧ (∀ r : Bytes,
        (migrateWorker o (rangeBundles t srcSz)).1 = Except.ok ()
        → o.awaitIntegration = Except.ok r
        → r ≠ srcRoot
        → isErr (migrate o nw srcSz srcRoot).1 = true) := by
  have hgt : ¬ (t > srcSz) := by omega
  cases hw : (migrateWorker o (rangeBundles t srcSz)).1 with
  | error e =>
    constructor
    · simp [migrate, h1, hgt, hw]
    · intro r hok
      exact Except.noConfusion hok
  | ok u =>
    cases u
    cases ha : o.awaitIntegration with
    | error e2 =>
      constructor
      · simp [migrate, h1, hgt, hw, ha]
      · intro r hok har
        exact Except.noConfusion har
    | ok root =>
      by_cases hr : root = srcRoot
      · subst hr
        constructor
        · simp [migrate, h1, hgt, hw, ha]
        · intro r hok har hne
          injection har with har2
          exact absurd har2.symm hne
      · constructor
        · simp [migrate, h1, hgt, hw, ha, hr]
        · intro r hok har hne
          simp [migrate, h1, hgt, hw, ha, hr, isErr]

/-- Concrete oracles for a trivial migration of an empty source, used to
evaluate the success condition. -/
def oraclesC4 : MOracles :=
  { integratedSize := Except.ok 0,
    getEntries := fun _ _ _ => Except.ok [],
    setEntryBundle := fun _ _ _ _ => none,
    awaitIntegration := Except.ok [1, 2, 3] }

/-- C4 witness: the success equivalence evaluated on concrete oracles. -/
theorem migrate_root_verified_witness :
    ((migrate oraclesC4 1 0 [1, 2, 3]).1 = Except.ok ()
      ↔ ((migrateWorker oraclesC4 (rangeBundles 0 0)).1 = Except.ok ()
          ∧ oraclesC4.awaitIntegration = Except.ok [1, 2, 3])) :=
  (migrate_root_verified oraclesC4 1 0 [1, 2, 3] 0 rfl (Nat.le_refl 0)).1

/-- C8: per bundle, the retried fetch-and-store runs at most 10 attempts;
if every one of the 10 attempts fails, the retry surfaces the error of the
final attempt, the worker aborts with an error and Migrate (when that
bundle heads the enumerated work) fails; a successful retry implies some
attempt in which the fetch succeeded AND the store succeeded; and the
migrated count of a worker grows by one for a bundle exactly when its retry
succeeded. -/
theorem migrate_retry_policy (o : MOracles) (b : MBundle) :
    (retryLoop (fetchAndStore o b) 10 0).2 ≤ 10
    ∧ ((∀ j, j < 10 → isErr (fetchAndStore o b j).1 = true) →
        (retryLoop (fetchAndStore o b) 10 0).1.1 = (fetchAndStore o b 9).1
        ∧ isErr (retryLoop (fetchAndStore o b) 10 0).1.1 = true
        ∧ (∀ rest, isErr (migrateWorker o (b :: rest)).1 = true)
        ∧ (∀ nw srcSz srcRoot t rest,
            o.integratedSize = Except.ok t → t ≤ srcSz →
            rangeBundles t srcSz = b :: rest →
            isErr (migrate o nw srcSz srcRoot).1 = true))
    ∧ (isErr (retryLoop (fetchAndStore o b) 10 0).1.1 = false →
        ∃ j, j < 10 ∧ ∃ d, o.getEntries b.index b.partialWidth j = Except.ok d
          ∧ o.setEntryBundle b.index b.partialWidth d j = none)
    ∧ (∀ rest,
        (migrateWorker o (b :: rest)).2.1
          = if isErr (retryLoop (fetchAndStore o b) 10 0).1.1 then 0
            else (migrateWorker o rest).2.1 + 1) := by
  refine ⟨?_, ?_, ?_, ?_⟩
  · simpa using retryLoop_count (fetchAndStore o b) 10 0
  · intro hall
    have hlast : (retryLoop (fetchAndStore o b) 10 0).1.1
        = (fetchAndStore o b 9).1 := by
      have h2 := retryLoop_lastError (fetchAndStore o b) 10 0 (by omega)
        (fun j hj1 hj2 => hall j (by omega))
      simpa using h2
    have herr : isErr (retryLoop (fetchAndStore o b) 10 0).1.1 = true := by
      rw [hlast]
      exact hall 9 (by omega)
    refine ⟨hlast, herr, ?_, ?_⟩
    · intro rest
      simp [migrateWorker, herr]
    · intro nw srcSz srcRoot t rest hint hle hrange
      have hgt : ¬ (t > srcSz) := by omega
      have hwerr : isErr (migrateWorker o (rangeBundles t srcSz)).1 = true := by
        rw [hrange]
        simp [migrateWorker, herr]
      cases hw : (migrateWorker o (rangeBundles t srcSz)).1 with
      | error e => simp [migrate, hint, hgt, hw, isErr]
      | ok u =>
        rw [hw] at hwerr
        simp [isErr] at hwerr
  · intro hok
    obtain ⟨j, hj1, hj2, hj3⟩ := retryLoop_ok_exists (fetchAndStore o b) 10 0 hok
    refine ⟨j, by omega, ?_⟩
    cases hg : o.getEntries b.index b.partialWidth j with
    | error e =>
      simp [fetchAndStore, hg, isErr] at hj3
    | ok d =>
      cases hs : o.setEntryBundle b.index b.partialWidth d j with
      | none => exact ⟨d, rfl, hs⟩
      | some e =>
        simp [fetchAndStore, hg, hs, isErr] at hj3
  · intro rest
    cases hE : isErr (retryLoop (fetchAndStore o b) 10 0).1.1 with
    | true => simp [migrateWorker, hE]
    | false => simp [migrateWorker, hE]

/-- Concrete oracles whose source fetch always fails, used to evaluate the
retry exhaustion behaviour. -/
def oraclesC8 : MOracles :=
  { integratedSize := Except.ok 0,
    getEntries := fun _ _ _ => Except.error "unavailable",
    setEntryBundle := fun _ _ _ _ => none,
    awaitIntegration := Except.ok [] }

/-- A concrete bundle address used to evaluate the retry behaviour. -/
def bundleC8 : MBundle := { index := 0, partialWidth := 0 }

/-- C8 witness: the attempt bound and the surfaced final error evaluated on
oracles whose fetch always fails. -/
theorem migrate_retry_policy_witness :
    (retryLoop (fetchAndStore oraclesC8 bundleC8) 10 0).2 ≤ 10
    ∧ (retryLoop (fetchAndStore oraclesC8 bundleC8) 10 0).1.1
        = (fetchAndStore oraclesC8 bundleC8 9).1 :=
  ⟨(migrate_retry_policy oraclesC8 bundleC8).1,
   ((migrate_retry_policy oraclesC8 bundleC8).2.1 (by decide)).1⟩

end Tessera

namespace MySQLPersonality

/-- Errors are opaque; Go error values are modelled as strings. -/
abbrev Err := String

/-- Raw byte strings. -/
abbrev Bytes := List Nat

/-- The observable outcome of the GET tile handler: HTTP status, the
Cache-Control header if set, the error message body of a 400, and the tile
bytes of a 200. -/
structure TileResponse where
  status : Nat
  cacheControl : Option String
  errBody : Option String
  tileBody : Option Bytes
deriving DecidableEq

/-- The Cache-Control value the handler sets. -/
def immutableCache : String := "public, max-age=31536000, immutable"

/-- Embeds the GET tile handler registered by configureTilesReadAPI:
parse the level, index and width from the path (the parser,
layout.ParseTileLevelIndexWidth, lives outside the handler and is passed in
as the parse outcome; the width is 256 for a complete tile and smaller for
a partial one); 400 on a parse error, 500 on a read error, 404 when the
tile is absent; otherwise the immutable Cache-Control header is set and the
tile bytes are written, with no inspection of the width. -/
def handleTile (parse : Except Err (Nat × Nat × Nat))
    (readTile : Nat → Nat → Nat → Except Err (Option Bytes)) : TileResponse :=
  match parse with
  | Except.error e =>
    { status := 400, cacheControl := none,
      errBody := some ("Malformed URL: " ++ e), tileBody := none }
  | Except.ok (level, index, width) =>
    match readTile level index width with
    | Except.error _ =>
      { status := 500, cacheControl := none, errBody := none, tileBody := none }
    | Except.ok none =>
      { status := 404, cacheControl := none, errBody := none, tileBody := none }
    | Except.ok (some tile) =>
      { status := 200, cacheControl := some immutableCache,
        errBody := none, tileBody := some tile }

/-- C6 counterexample: a request for a PARTIAL tile (parsed width 37, not
256) whose bytes are found still receives the immutable Cache-Control
header, contradicting the claim that the header is set only for fully
complete tiles. -/
theorem tile_cache_counterexample :
    (handleTile (Except.ok (0, 0, 37))
        (fun _ _ _ => Except.ok (some [0]))).cacheControl = some immutableCache
    ∧ (37 : Nat) ≠ 256 :=
  ⟨rfl, by decide⟩

/-- C6 (amended): every tile request that succeeds (tile bytes found)
receives the Cache-Control header public, max-age=31536000, immutable,
regardless of whether the requested tile is partial or complete. -/
theorem tile_cache_on_success (parse : Except Err (Nat × Nat × Nat))
    (readTile : Nat → Nat → Nat → Except Err (Option Bytes))
    (level index width : Nat) (tile : Bytes)
    (hp : parse = Except.ok (level, index, width))
    (hr : readTile level index width = Except.ok (some tile)) :
    (handleTile parse readTile).cacheControl = some immutableCache
    ∧ (handleTile parse readTile).status = 200 := by
  subst hp
  simp [handleTile, hr]

/-- C6 witness: the amended statement evaluated on a complete-tile request
that succeeds. -/
theorem tile_cache_on_success_witness :
    (handleTile (Except.ok (0, 0, 256))
        (fun _ _ _ => Except.ok (some [1, 2]))).cacheControl = some immutableCache
    ∧ (handleTile (Except.ok (0, 0, 256))
        (fun _ _ _ => Except.ok (some [1, 2]))).status = 200 :=
  tile_cache_on_success (Except.ok (0, 0, 256))
    (fun _ _ _ => Except.ok (some [1, 2])) 0 0 256 [1, 2] rfl rfl

end MySQLPersonality
